import Mathlib

/-!
Shallow embedding of `src/watch-scroll.js` (the watchScroll class).

The class watches one DOM element and, on scroll/resize events, recomputes a
visibility status record and fires one of two callbacks according to a
condition and a gating policy.  We embed:

* JavaScript values that can sit in the status record, in a condition
  object, or in a callback slot (`JSVal`): `undefined`, `null`, booleans,
  strings, numbers and functions (function identity is irrelevant to the
  logic: only `typeof f === "function"` and truthiness are consulted).
* the `status` record (`Status`, six fields, initially all `null`),
* the `conditions` property (`Conds`: a string, an object modelled as an
  association list of own enumerable properties, `undefined` or `null` --
  note `typeof null === "object"` in JavaScript, so `null` reaches the
  object branch of `checkPosition` and iterates zero times),
* the `conditionsMatch` property (`MatchState`: the string "all", `null`,
  or a boolean),
* the whole evaluator object (`Evaluator`), and the methods
  `checkPosition`, `on`, `always` and the constructor (`construct`).

Geometry is exact rational arithmetic: `getBoundingClientRect` is modelled
by passing the rectangle (`Rect`) and the viewport extent (`vpW`, `vpH`)
as explicit inputs, since they are read fresh from the environment on each
call.  `checkPosition` reads `this.element.getBoundingClientRect()` with no
guard, so on an unbound element it throws: the embedding returns
`Except.error`; the guarded interior (everything after the geometry read)
is `checkPositionCore`.  A callback invocation is reported as
`(Which, event)`: which slot fired and the event value passed through.
-/

namespace WatchScroll

/-- A JavaScript value as it can appear in the fields this logic touches. -/
inductive JSVal where
  | undef
  | jsnull
  | bool (b : Bool)
  | str (s : String)
  | num (q : ℚ)
  | func
  deriving DecidableEq

/-- JavaScript truthiness of a `JSVal` (`v ? true : false`). -/
def JSVal.truthy : JSVal → Bool
  | JSVal.undef => false
  | JSVal.jsnull => false
  | JSVal.bool b => b
  | JSVal.str s => !(s == "")
  | JSVal.num q => !(q == 0)
  | JSVal.func => true

/-- The test `"function" === typeof v`. -/
def JSVal.isFunction : JSVal → Bool
  | JSVal.func => true
  | _ => false

/-- The `this.status` record: lines 47-54 of the source. -/
structure Status where
  top : JSVal
  right : JSVal
  bottom : JSVal
  left : JSVal
  centerIsVisible : JSVal
  visibility : JSVal
  deriving DecidableEq

/-- The constructor's initial status: every field `null`. -/
def initialStatus : Status :=
  { top := JSVal.jsnull, right := JSVal.jsnull, bottom := JSVal.jsnull,
    left := JSVal.jsnull, centerIsVisible := JSVal.jsnull,
    visibility := JSVal.jsnull }

/-- Property read `this.status[side]` for an arbitrary string key: an
unrecognized key reads as `undefined`, exactly as in JavaScript. -/
def statusGet (st : Status) (key : String) : JSVal :=
  if key == "top" then st.top
  else if key == "right" then st.right
  else if key == "bottom" then st.bottom
  else if key == "left" then st.left
  else if key == "centerIsVisible" then st.centerIsVisible
  else if key == "visibility" then st.visibility
  else JSVal.undef

/-- Field-by-field inequality of two status records, as the `for...in` loop
over the six own properties performs it with `!==`. -/
def statusNe (a b : Status) : Bool :=
  !(a.top == b.top) || !(a.right == b.right) || !(a.bottom == b.bottom)
    || !(a.left == b.left) || !(a.centerIsVisible == b.centerIsVisible)
    || !(a.visibility == b.visibility)

/-- The `this.conditions` property. An object is its list of own enumerable
properties (key, value). -/
inductive Conds where
  | str (s : String)
  | obj (fields : List (String × JSVal))
  | undef
  | jsnull
  deriving DecidableEq

/-- JavaScript truthiness of the `conditions` property (`this.conditions &&`).
Objects are always truthy, including the empty object. -/
def Conds.truthy : Conds → Bool
  | Conds.str s => !(s == "")
  | Conds.obj _ => true
  | Conds.undef => false
  | Conds.jsnull => false

/-- Values the `this.conditionsMatch` property takes: the string "all",
`null`, or a boolean. -/
inductive MatchState where
  | all
  | jsnull
  | bool (b : Bool)
  deriving DecidableEq

/-- JavaScript truthiness of `this.conditionsMatch`. -/
def MatchState.truthy : MatchState → Bool
  | MatchState.all => true
  | MatchState.jsnull => false
  | MatchState.bool b => b

/-- An element bounding rectangle as `getBoundingClientRect` reports it. -/
structure Rect where
  top : ℚ
  right : ℚ
  bottom : ℚ
  left : ℚ
  deriving DecidableEq

/-- The evaluator object. `elementBound` is whether `this.element` holds an
element (a truthy reference); callbacks are arbitrary `JSVal`s because the
source checks them for truthiness and for `typeof === "function"`. -/
structure Evaluator where
  elementBound : Bool
  status : Status
  conditionsMatch : MatchState
  conditions : Conds
  callbackTrue : JSVal
  callbackFalse : JSVal
  onEveryScrollEvent : Bool
  deriving DecidableEq

/-- Numeric coercion of a boolean, as JavaScript relational operators apply
it when one operand is a boolean: `false < 0` compares `0 < 0`. -/
def boolToNum (b : Bool) : ℚ := if b then 1 else 0

/-- Lines 242-256: the fresh status record computed from the element
rectangle and the viewport extent.  The `overflow` test is embedded exactly
as written in the source: it compares the already-assigned boolean flags
(`this.status.top < 0` etc.) numerically, not the raw coordinates. -/
def statusOfRect (r : Rect) (vpW vpH : ℚ) : Status :=
  let cx : ℚ := (r.left + r.right) / 2
  let cy : ℚ := (r.top + r.bottom) / 2
  let t : Bool := decide (r.top ≥ 0 ∧ r.top ≤ vpH)
  let b : Bool := decide (r.bottom ≥ 0 ∧ r.bottom ≤ vpH)
  let rt : Bool := decide (r.right ≥ 0 ∧ r.right ≤ vpW)
  let l : Bool := decide (r.left ≥ 0 ∧ r.left ≤ vpW)
  let c : Bool := decide (cx ≥ 0 ∧ cy ≥ 0 ∧ cx ≤ vpW ∧ cy ≤ vpH)
  let vis : String :=
    if t && b && l && rt then "full"
    else if boolToNum t < 0 ∧ boolToNum b > vpH ∧ boolToNum l < 0 ∧ boolToNum rt > vpW then
      "overflow"
    else if (t || b) && (l || rt) then "partial"
    else "hidden"
  { top := JSVal.bool t, right := JSVal.bool rt, bottom := JSVal.bool b,
    left := JSVal.bool l, centerIsVisible := JSVal.bool c,
    visibility := JSVal.str vis }

/-- Line 267: one iteration of the condition-object loop.  The field fails
when the configured value is the string "hidden" and the status field is
not strictly `false`, or the configured value is not "hidden" and the
status field is not strictly the boolean coercion of the value. -/
def fieldFails (st : Status) (key : String) (v : JSVal) : Bool :=
  (v == JSVal.str "hidden" && !(statusGet st key == JSVal.bool false))
    || (!(v == JSVal.str "hidden") && !(statusGet st key == JSVal.bool v.truthy))

/-- The outcome of the object-condition loop: `conditionsMatch` stays true
unless some configured field fails. -/
def condObjMatches (st : Status) (fields : List (String × JSVal)) : Bool :=
  !(fields.any (fun p => fieldFails st p.1 p.2))

/-- Which callback slot fired. -/
inductive Which where
  | ctrue
  | cfalse
  deriving DecidableEq

/-- Lines 278-282: the `if / else if` deciding which callback to invoke
once the gate has passed: callbackTrue when the recorded match is truthy
and callbackTrue is a function, else callbackFalse when the recorded match
is falsy and callbackFalse is a function, else nothing. -/
def fireCallback (cm : MatchState) (cbT cbF : JSVal) (event : JSVal) :
    Option (Which × JSVal) :=
  if cm.truthy && cbT.isFunction then some (Which.ctrue, event)
  else if !cm.truthy && cbF.isFunction then some (Which.cfalse, event)
  else none

/-- Lines 258-273: the matching loops.  Given the previous status, the
updated evaluator fields and the fresh status, returns the pair
(conditionsMatch, statusChange) the two loops leave behind: the first
component stays true unless a configured field fails; the second records
whether the "all" loop saw a changed field, or the object loop a failed
one. -/
def matchOutcome (s : Evaluator) (previousStatus st : Status) : Bool × Bool :=
  if s.conditionsMatch == MatchState.all || s.conditions == Conds.str "all" then
    (true, statusNe previousStatus st)
  else
    match s.conditions with
    | Conds.obj fields =>
        (condObjMatches st fields, !(condObjMatches st fields))
    | _ => (true, false)

/-- Lines 233-283 of `checkPosition`, after the geometry read has
succeeded.  Returns the updated evaluator and the callback invocation, if
any (`checkPosition` fires at most one callback, via `if / else if`). -/
def checkPositionCore (s : Evaluator) (r : Rect) (vpW vpH : ℚ) (event : JSVal) :
    Evaluator × Option (Which × JSVal) :=
  let previousStatus := s.status
  let st := statusOfRect r vpW vpH
  let conditionsMatch := (matchOutcome s previousStatus st).1
  let statusChange := (matchOutcome s previousStatus st).2
  let isBoolOrNull : Bool :=
    match s.conditionsMatch with
    | MatchState.bool _ => true
    | MatchState.jsnull => true
    | MatchState.all => false
  let gate : Bool :=
    (isBoolOrNull && !(MatchState.bool conditionsMatch == s.conditionsMatch))
      || s.onEveryScrollEvent
      || (s.conditions == Conds.str "all" && statusChange)
  if gate then
    let newCM :=
      if s.conditionsMatch == MatchState.all then MatchState.all
      else MatchState.bool conditionsMatch
    ({ s with status := st, conditionsMatch := newCM },
      fireCallback newCM s.callbackTrue s.callbackFalse event)
  else
    ({ s with status := st }, none)

/-- The method `checkPosition(event)` itself: line 233 reads
`this.element.getBoundingClientRect()` with no guard, so with no element
bound it throws a TypeError. -/
def checkPosition (s : Evaluator) (r : Rect) (vpW vpH : ℚ) (event : JSVal) :
    Except String (Evaluator × Option (Which × JSVal)) :=
  if s.elementBound then Except.ok (checkPositionCore s r vpW vpH event)
  else Except.error "TypeError: this.element is undefined"

/-- The value `conditionsMatch` is (re)initialized to from a fresh
`conditions` argument: "all" for any string, `null` otherwise. -/
def initMatch : Conds → MatchState
  | Conds.str _ => MatchState.all
  | _ => MatchState.jsnull

/-- Lines 124-141: the method `on` (named onMethod here: `on` is a Lean token).  The configuration fields are replaced
first; only then is the missing-element early return taken; with an element
and a usable configuration, `checkPosition()` runs with no event. -/
def onMethod (s : Evaluator) (conds : Conds) (cbT cbF : JSVal) (onEvery : Bool)
    (r : Rect) (vpW vpH : ℚ) : Evaluator × Option (Which × JSVal) :=
  let s1 : Evaluator :=
    { s with
      conditionsMatch := initMatch conds, conditions := conds,
      callbackTrue := cbT, callbackFalse := cbF, onEveryScrollEvent := onEvery }
  if !s1.elementBound then (s1, none)
  else if conds.truthy && (cbT.truthy || cbF.truthy) then
    checkPositionCore s1 r vpW vpH JSVal.undef
  else (s1, none)

/-- Lines 156-171: the method `always`.  It sets `conditionsMatch` and
`conditions` to "all" and replaces `callbackTrue`; it does not touch
`callbackFalse` or `onEveryScrollEvent`. -/
def always (s : Evaluator) (cbT : JSVal) (r : Rect) (vpW vpH : ℚ) :
    Evaluator × Option (Which × JSVal) :=
  let s1 : Evaluator :=
    { s with
      conditionsMatch := MatchState.all, conditions := Conds.str "all",
      callbackTrue := cbT }
  if !s1.elementBound then (s1, none)
  else if (Conds.str "all").truthy && (cbT.truthy || s1.callbackFalse.truthy) then
    checkPositionCore s1 r vpW vpH JSVal.undef
  else (s1, none)

/-- Lines 31-106: the constructor.  All fields are initialized, then the
missing-element early return, then the optional initial `checkPosition()`. -/
def construct (elementBound : Bool) (conds : Conds) (cbT cbF : JSVal)
    (onEvery : Bool) (r : Rect) (vpW vpH : ℚ) :
    Evaluator × Option (Which × JSVal) :=
  let s : Evaluator :=
    { elementBound := elementBound, status := initialStatus,
      conditionsMatch := initMatch conds, conditions := conds,
      callbackTrue := cbT, callbackFalse := cbF, onEveryScrollEvent := onEvery }
  if !elementBound then (s, none)
  else if conds.truthy && (cbT.truthy || cbF.truthy) then
    checkPositionCore s r vpW vpH JSVal.undef
  else (s, none)

/-- A sequence of scroll/resize dispatches: each frame supplies the
geometry and viewport read at that moment; the handler passes the event
through, modelled as `undefined` since its value is opaque.  Returns the
final evaluator and the callback invocation (or `none`) of each step. -/
def evalSeq (s : Evaluator) : List (Rect × ℚ × ℚ) → Evaluator × List (Option (Which × JSVal))
  | [] => (s, [])
  | f :: fs =>
    let step := checkPositionCore s f.1 f.2.1 f.2.2 JSVal.undef
    let rest := evalSeq step.1 fs
    (rest.1, step.2 :: rest.2)

/-- The condition object of the readme example: a single configured field
requiring the element center to be visible. -/
def centerCond : Conds := Conds.obj [("centerIsVisible", JSVal.bool true)]

/-- The boolean the source assigns to `status.centerIsVisible` (line 246). -/
def centerMatch (r : Rect) (vpW vpH : ℚ) : Bool :=
  decide ((r.left + r.right) / 2 ≥ 0 ∧ (r.top + r.bottom) / 2 ≥ 0
    ∧ (r.left + r.right) / 2 ≤ vpW ∧ (r.top + r.bottom) / 2 ≤ vpH)

/-- The `conditionsMatch` value recording a previous boolean match, or
`null` when no evaluation has recorded one yet. -/
def optMS : Option Bool → MatchState
  | none => MatchState.jsnull
  | some b => MatchState.bool b

/-- Comparison function for the temporal claim about the condition
`(centerIsVisible, true)`, written from the specification text: over a
sequence of evaluations, callbackTrue fires exactly at an evaluation whose
computed match is true while the recorded match was not true, callbackFalse
exactly at one whose computed match is false while the recorded match was
not false, and nothing fires while the match is unchanged. -/
def specTransitionCalls : Option Bool → List (Rect × ℚ × ℚ) → List (Option (Which × JSVal))
  | _, [] => []
  | prev, f :: fs =>
    let m := centerMatch f.1 f.2.1 f.2.2
    (if prev == some m then none
     else if m then some (Which.ctrue, JSVal.undef)
     else some (Which.cfalse, JSVal.undef)) :: specTransitionCalls (some m) fs

/-- All six status fields hold definite post-evaluation values: booleans
for the five flags, one of the four classification strings for
`visibility`. -/
def definiteStatus (st : Status) : Prop :=
  (∃ b, st.top = JSVal.bool b) ∧ (∃ b, st.right = JSVal.bool b)
    ∧ (∃ b, st.bottom = JSVal.bool b) ∧ (∃ b, st.left = JSVal.bool b)
    ∧ (∃ b, st.centerIsVisible = JSVal.bool b)
    ∧ (st.visibility = JSVal.str "full" ∨ st.visibility = JSVal.str "partial"
       ∨ st.visibility = JSVal.str "overflow" ∨ st.visibility = JSVal.str "hidden")

/-- Concrete inputs used by the closed instances below. -/
def exRectHidden : Rect := { top := -1000, right := 50, bottom := -900, left := 10 }

/-- A small box fully inside an 800 by 600 viewport, center at (30, 30). -/
def exRectIn : Rect := { top := 10, right := 50, bottom := 50, left := 10 }

/-- A box strictly containing an 800 by 600 viewport on both axes. -/
def exRectEnclosing : Rect := { top := -10, right := 810, bottom := 610, left := -10 }

/-- A bound evaluator with two function callbacks and no condition yet. -/
def exBase : Evaluator :=
  { elementBound := true, status := initialStatus,
    conditionsMatch := MatchState.jsnull, conditions := Conds.undef,
    callbackTrue := JSVal.func, callbackFalse := JSVal.func,
    onEveryScrollEvent := false }

/-- The evaluator configured with the condition object of the C1 scenario. -/
def exVisibilityHidden : Evaluator :=
  { exBase with conditions := Conds.obj [("visibility", JSVal.str "hidden")] }

/-- The evaluator configured with the centerIsVisible condition. -/
def exCenter : Evaluator := { exBase with conditions := centerCond }

/-- The same condition object with one unrecognized extra field. -/
def exCenterFoo : Evaluator :=
  { exBase with
    conditions := Conds.obj [("centerIsVisible", JSVal.bool true), ("foo", JSVal.bool true)] }

/-- An evaluator configured with the string condition "all". -/
def exAll : Evaluator :=
  { exBase with conditions := Conds.str "all", conditionsMatch := MatchState.all }

/-- An evaluator with no element bound. -/
def exUnbound : Evaluator := { exBase with elementBound := false }

theorem statusOfRect_exRectIn :
    statusOfRect exRectIn 800 600
      = { top := JSVal.bool true, right := JSVal.bool true, bottom := JSVal.bool true,
          left := JSVal.bool true, centerIsVisible := JSVal.bool true,
          visibility := JSVal.str "full" } := by
  norm_num [statusOfRect, exRectIn, Status.mk.injEq]

theorem statusOfRect_exRectHidden :
    statusOfRect exRectHidden 800 600
      = { top := JSVal.bool false, right := JSVal.bool true, bottom := JSVal.bool false,
          left := JSVal.bool true, centerIsVisible := JSVal.bool false,
          visibility := JSVal.str "hidden" } := by
  norm_num [statusOfRect, exRectHidden, Status.mk.injEq, boolToNum]

theorem statusNe_self (a : Status) : statusNe a a = false := by
  simp [statusNe]

theorem checkPositionCore_status (s : Evaluator) (r : Rect) (vpW vpH : ℚ) (ev : JSVal) :
    (checkPositionCore s r vpW vpH ev).1.status = statusOfRect r vpW vpH := by
  simp only [checkPositionCore]
  split <;> rfl

theorem checkPositionCore_frame (s : Evaluator) (r : Rect) (vpW vpH : ℚ) (ev : JSVal) :
    (checkPositionCore s r vpW vpH ev).1.elementBound = s.elementBound
    ∧ (checkPositionCore s r vpW vpH ev).1.conditions = s.conditions
    ∧ (checkPositionCore s r vpW vpH ev).1.callbackTrue = s.callbackTrue
    ∧ (checkPositionCore s r vpW vpH ev).1.callbackFalse = s.callbackFalse
    ∧ (checkPositionCore s r vpW vpH ev).1.onEveryScrollEvent = s.onEveryScrollEvent := by
  simp only [checkPositionCore]
  split <;> exact ⟨rfl, rfl, rfl, rfl, rfl⟩

theorem checkPositionCore_cm_all (s : Evaluator) (r : Rect) (vpW vpH : ℚ) (ev : JSVal)
    (h : s.conditionsMatch = MatchState.all) :
    (checkPositionCore s r vpW vpH ev).1.conditionsMatch = MatchState.all := by
  simp only [checkPositionCore, h]
  split <;> simp

theorem boolToNum_nonneg (b : Bool) : 0 ≤ boolToNum b := by
  cases b <;> norm_num [boolToNum]

theorem definiteStatus_statusOfRect (r : Rect) (vpW vpH : ℚ) :
    definiteStatus (statusOfRect r vpW vpH) := by
  refine ⟨⟨_, rfl⟩, ⟨_, rfl⟩, ⟨_, rfl⟩, ⟨_, rfl⟩, ⟨_, rfl⟩, ?_⟩
  simp only [statusOfRect]
  split
  · exact Or.inl rfl
  · split
    · exact Or.inr (Or.inr (Or.inl rfl))
    · split
      · exact Or.inr (Or.inl rfl)
      · exact Or.inr (Or.inr (Or.inr rfl))

/-- C6: for every bounding box and viewport extent, the computed flags are
true exactly when the corresponding edge coordinate lies in the viewport
range on its axis, and centerIsVisible exactly when the midpoint of the box
lies within the viewport rectangle. -/
theorem c6_edge_and_center_flags_characterization (r : Rect) (vpW vpH : ℚ) :
    ((statusOfRect r vpW vpH).top = JSVal.bool true ↔ (0 ≤ r.top ∧ r.top ≤ vpH))
    ∧ ((statusOfRect r vpW vpH).bottom = JSVal.bool true ↔ (0 ≤ r.bottom ∧ r.bottom ≤ vpH))
    ∧ ((statusOfRect r vpW vpH).left = JSVal.bool true ↔ (0 ≤ r.left ∧ r.left ≤ vpW))
    ∧ ((statusOfRect r vpW vpH).right = JSVal.bool true ↔ (0 ≤ r.right ∧ r.right ≤ vpW))
    ∧ ((statusOfRect r vpW vpH).centerIsVisible = JSVal.bool true
        ↔ (0 ≤ (r.left + r.right) / 2 ∧ (r.left + r.right) / 2 ≤ vpW
           ∧ 0 ≤ (r.top + r.bottom) / 2 ∧ (r.top + r.bottom) / 2 ≤ vpH)) := by
  refine ⟨?_, ?_, ?_, ?_, ?_⟩ <;> (simp [statusOfRect, decide_eq_true_eq, ge_iff_le]; try tauto)

/-- C3: the code classifies a box strictly containing the viewport as
"hidden", not "overflow": the overflow branch compares the boolean edge
flags numerically (`status.top < 0`), so it can never be taken. -/
theorem c3_enclosing_box_classified_hidden_never_overflow :
    (statusOfRect exRectEnclosing 800 600).visibility = JSVal.str "hidden"
    ∧ ∀ (r : Rect) (vpW vpH : ℚ),
        (statusOfRect r vpW vpH).visibility ≠ JSVal.str "overflow" := by
  constructor
  · decide
  · intro r vpW vpH
    simp only [statusOfRect]
    split
    · simp
    · split
      · next h => exact absurd h.1 (not_lt.mpr (boolToNum_nonneg _))
      · split <;> simp

/-- C1: on the scenario input (box top -1000, bottom -900, left 10,
right 50, viewport 800 by 600, condition requiring visibility "hidden",
match state still null), the evaluation computes visibility "hidden" but
records the condition as NOT matched and invokes callbackFalse: the code
treats the configured value "hidden" as the marker requiring the status
field to be strictly false, and the visibility field holds a string. -/
theorem c1_visibility_hidden_condition_fires_callbackFalse :
    ((checkPositionCore exVisibilityHidden exRectHidden 800 600 JSVal.undef).1.status.visibility
        = JSVal.str "hidden")
    ∧ ((checkPositionCore exVisibilityHidden exRectHidden 800 600 JSVal.undef).1.conditionsMatch
        = MatchState.bool false)
    ∧ ((checkPositionCore exVisibilityHidden exRectHidden 800 600 JSVal.undef).2
        = some (Which.cfalse, JSVal.undef)) := by
  decide

/-- C5 counterexample: `always` does not clear callbackFalse: a previously
configured callbackFalse function is still present after the call. -/
theorem c5_counterexample_callbackFalse_retained :
    exBase.callbackFalse = JSVal.func
    ∧ (always exBase JSVal.func exRectIn 800 600).1.callbackFalse = JSVal.func := by
  decide

/-- C5 amended: after `always`, conditions and conditionsMatch are "all"
and callbackTrue is the passed function, while callbackFalse,
onEveryScrollEvent and the element binding retain their prior values. -/
theorem c5_amended_always_field_updates (s : Evaluator) (cbT : JSVal) (r : Rect)
    (vpW vpH : ℚ) :
    ((always s cbT r vpW vpH).1.conditions = Conds.str "all")
    ∧ ((always s cbT r vpW vpH).1.conditionsMatch = MatchState.all)
    ∧ ((always s cbT r vpW vpH).1.callbackTrue = cbT)
    ∧ ((always s cbT r vpW vpH).1.callbackFalse = s.callbackFalse)
    ∧ ((always s cbT r vpW vpH).1.onEveryScrollEvent = s.onEveryScrollEvent)
    ∧ ((always s cbT r vpW vpH).1.elementBound = s.elementBound) := by
  simp only [always]
  split
  · exact ⟨rfl, rfl, rfl, rfl, rfl, rfl⟩
  · split
    · refine ⟨?_, ?_, ?_, ?_, ?_, ?_⟩
      · exact ((checkPositionCore_frame _ _ _ _ _).2.1).trans rfl
      · exact checkPositionCore_cm_all _ _ _ _ _ rfl
      · exact ((checkPositionCore_frame _ _ _ _ _).2.2.1).trans rfl
      · exact ((checkPositionCore_frame _ _ _ _ _).2.2.2.1).trans rfl
      · exact ((checkPositionCore_frame _ _ _ _ _).2.2.2.2).trans rfl
      · exact ((checkPositionCore_frame _ _ _ _ _).1).trans rfl
    · exact ⟨rfl, rfl, rfl, rfl, rfl, rfl⟩

/-- C2 counterexample: with the center of the box visible, the condition
object containing only (centerIsVisible, true) records a match, while the
same object extended with the unrecognized field (foo, true) records a
mismatch: the unrecognized field participates in matching. -/
theorem c2_counterexample_unknown_field_flips_match :
    ((checkPositionCore exCenter exRectIn 800 600 JSVal.undef).1.conditionsMatch
        = MatchState.bool true)
    ∧ ((checkPositionCore exCenterFoo exRectIn 800 600 JSVal.undef).1.conditionsMatch
        = MatchState.bool false) := by
  refine ⟨?_, ?_⟩ <;> simp only [checkPositionCore, statusOfRect_exRectIn] <;> decide

/-- C2 amended: a condition-object field whose name is not one of the six
status fields always fails the match (the status read yields `undefined`,
which is strictly unequal both to `false` and to any boolean), so any
condition object containing such a field evaluates to no match. -/
theorem c2_amended_unknown_field_always_fails (st : Status)
    (fields : List (String × JSVal)) (key : String) (v : JSVal)
    (hkey : key ∉ (["top", "right", "bottom", "left", "centerIsVisible",
        "visibility"] : List String))
    (hmem : (key, v) ∈ fields) :
    condObjMatches st fields = false := by
  simp only [List.mem_cons, List.not_mem_nil, or_false, not_or] at hkey
  obtain ⟨h1, h2, h3, h4, h5, h6⟩ := hkey
  have hget : statusGet st key = JSVal.undef := by
    simp [statusGet, h1, h2, h3, h4, h5, h6]
  have hfail : fieldFails st key v = true := by
    by_cases hv : v = JSVal.str "hidden"
    · simp [fieldFails, hv, hget]
    · simp [fieldFails, hv, hget]
  simp only [condObjMatches, Bool.not_eq_false']
  exact List.any_eq_true.mpr ⟨(key, v), hmem, hfail⟩

/-- C2 amended, witness: the single unrecognized field (foo, true) makes
the empty-status evaluation record no match. -/
theorem c2_amended_witness :
    condObjMatches initialStatus [("foo", JSVal.bool true)] = false :=
  c2_amended_unknown_field_always_fails initialStatus [("foo", JSVal.bool true)]
    "foo" (JSVal.bool true) (by decide) (by decide)

/-- C4 counterexample: calling checkPosition with no element bound throws
(the unguarded `this.element.getBoundingClientRect()` read), so evaluation
is not a failure-free no-op. -/
theorem c4_counterexample_unbound_evaluate_throws :
    checkPosition exUnbound exRectIn 800 600 JSVal.undef
      = Except.error "TypeError: this.element is undefined" := rfl

/-- C4 amended: with no element bound, the constructor, `on` and `always`
skip attaching and evaluating and return without failing (the status is
left untouched), and with an element bound, evaluation never fails for any
event value, the missing (undefined) event included; but evaluation itself
with no element bound throws. -/
theorem c4_amended_configuration_guards :
    (∀ (s : Evaluator) (conds : Conds) (cbT cbF : JSVal) (oe : Bool) (r : Rect)
        (vpW vpH : ℚ), s.elementBound = false →
          (onMethod s conds cbT cbF oe r vpW vpH).2 = none
          ∧ (onMethod s conds cbT cbF oe r vpW vpH).1.status = s.status)
    ∧ (∀ (s : Evaluator) (cbT : JSVal) (r : Rect) (vpW vpH : ℚ),
        s.elementBound = false →
          (always s cbT r vpW vpH).2 = none
          ∧ (always s cbT r vpW vpH).1.status = s.status)
    ∧ (∀ (conds : Conds) (cbT cbF : JSVal) (oe : Bool) (r : Rect) (vpW vpH : ℚ),
        (construct false conds cbT cbF oe r vpW vpH).2 = none
        ∧ (construct false conds cbT cbF oe r vpW vpH).1.status = initialStatus)
    ∧ (∀ (s : Evaluator) (r : Rect) (vpW vpH : ℚ) (ev : JSVal),
        s.elementBound = true →
          checkPosition s r vpW vpH ev
            = Except.ok (checkPositionCore s r vpW vpH ev)) := by
  refine ⟨?_, ?_, ?_, ?_⟩
  · intro s conds cbT cbF oe r vpW vpH h
    simp [onMethod, h]
  · intro s cbT r vpW vpH h
    simp [always, h]
  · intro conds cbT cbF oe r vpW vpH
    simp [construct]
  · intro s r vpW vpH ev h
    simp [checkPosition, h]

theorem fireCallback_spec (cm : MatchState) (cbT cbF : JSVal) (ev : JSVal) :
    (∀ e2, fireCallback cm cbT cbF ev = some (Which.ctrue, e2) →
        cm.truthy = true ∧ cbT.isFunction = true)
    ∧ (∀ e2, fireCallback cm cbT cbF ev = some (Which.cfalse, e2) →
        cm.truthy = false ∧ cbF.isFunction = true)
    ∧ (cm.truthy = true → cbT.isFunction = false → fireCallback cm cbT cbF ev = none)
    ∧ (cm.truthy = false → cbF.isFunction = false → fireCallback cm cbT cbF ev = none) := by
  by_cases h1 : cm.truthy = true <;> by_cases h2 : cbT.isFunction = true <;>
    by_cases h3 : cbF.isFunction = true <;>
      simp_all [fireCallback]

theorem msbool_beq_jsnull (b : Bool) :
    (MatchState.bool b == MatchState.jsnull) = false := by
  cases b <;> rfl

theorem msbool_beq_all (b : Bool) :
    (MatchState.bool b == MatchState.all) = false := by
  cases b <;> rfl

theorem jsnull_beq_all : (MatchState.jsnull == MatchState.all) = false := rfl

theorem msbool_beq_msbool (a b : Bool) :
    (MatchState.bool a == MatchState.bool b) = (a == b) := by
  cases a <;> cases b <;> rfl

theorem condsobj_beq_str (fs : List (String × JSVal)) (t : String) :
    (Conds.obj fs == Conds.str t) = false := rfl

theorem jsbool_beq_str (b : Bool) (t : String) :
    (JSVal.bool b == JSVal.str t) = false := by
  cases b <;> rfl

theorem jsbool_beq_jsbool (a b : Bool) :
    (JSVal.bool a == JSVal.bool b) = (a == b) := by
  cases a <;> cases b <;> rfl

theorem none_beq_some (b : Bool) : ((none : Option Bool) == some b) = false := rfl

theorem some_beq_some (a b : Bool) : ((some a : Option Bool) == some b) = (a == b) := rfl

theorem checkPositionCore_cm_of_all_conditions (s : Evaluator) (r : Rect) (vpW vpH : ℚ)
    (ev : JSVal) (hc : s.conditions = Conds.str "all") :
    (checkPositionCore s r vpW vpH ev).1.conditionsMatch = MatchState.all
    ∨ (checkPositionCore s r vpW vpH ev).1.conditionsMatch = MatchState.bool true := by
  have hmo : (matchOutcome s s.status (statusOfRect r vpW vpH)).1 = true := by
    simp only [matchOutcome, hc]
    split
    · rfl
    · next h =>
        exact absurd (by simp) h
  cases hcm : s.conditionsMatch with
  | all => exact Or.inl (checkPositionCore_cm_all s r vpW vpH ev hcm)
  | jsnull =>
      right
      simp [checkPositionCore, hcm, hmo, msbool_beq_jsnull, jsnull_beq_all]
  | bool b =>
      right
      cases b
      · simp [checkPositionCore, hcm, hmo, msbool_beq_msbool, msbool_beq_all]
      · simp only [checkPositionCore, hcm, hmo, msbool_beq_msbool, msbool_beq_all]
        split <;> simp [hcm]

/-- C8: with the condition "all" and onEveryScrollEvent false, a second
evaluation with identical element geometry and viewport dimensions invokes
no callback: no status field changed, so the gate stays closed. -/
theorem c8_all_condition_identical_reevaluation_silent (s : Evaluator) (r : Rect)
    (vpW vpH : ℚ) (ev1 ev2 : JSVal)
    (hc : s.conditions = Conds.str "all") (he : s.onEveryScrollEvent = false) :
    (checkPositionCore (checkPositionCore s r vpW vpH ev1).1 r vpW vpH ev2).2 = none := by
  have hc1 : (checkPositionCore s r vpW vpH ev1).1.conditions = Conds.str "all" :=
    (checkPositionCore_frame s r vpW vpH ev1).2.1.trans hc
  have he1 : (checkPositionCore s r vpW vpH ev1).1.onEveryScrollEvent = false :=
    (checkPositionCore_frame s r vpW vpH ev1).2.2.2.2.trans he
  have hst : (checkPositionCore s r vpW vpH ev1).1.status = statusOfRect r vpW vpH :=
    checkPositionCore_status s r vpW vpH ev1
  have hcm2 := checkPositionCore_cm_of_all_conditions s r vpW vpH ev1 hc
  generalize hg : (checkPositionCore s r vpW vpH ev1).1 = s1 at hc1 he1 hst hcm2
  rcases hcm2 with hcm | hcm <;>
    simp [checkPositionCore, matchOutcome, hc1, he1, hst, hcm, statusNe_self,
      msbool_beq_msbool]

/-- C8 witness: a bound evaluator with condition "all" evaluated twice on
the same box and viewport fires nothing the second time. -/
theorem c8_witness :
    (checkPositionCore (checkPositionCore exAll exRectIn 800 600 JSVal.undef).1
        exRectIn 800 600 JSVal.undef).2 = none :=
  c8_all_condition_identical_reevaluation_silent exAll exRectIn 800 600
    JSVal.undef JSVal.undef rfl rfl

/-- C9: every status field is null before the first evaluation (the
constructor, and a constructor call that skips evaluation, leave the
initial record); every evaluation leaves all six fields definite (booleans
and one of the four classification strings); and the configuration
operations preserve definiteness. -/
theorem c9_status_definiteness_invariant :
    (initialStatus.top = JSVal.jsnull ∧ initialStatus.right = JSVal.jsnull
      ∧ initialStatus.bottom = JSVal.jsnull ∧ initialStatus.left = JSVal.jsnull
      ∧ initialStatus.centerIsVisible = JSVal.jsnull
      ∧ initialStatus.visibility = JSVal.jsnull)
    ∧ (∀ (conds : Conds) (cbT cbF : JSVal) (oe : Bool) (r : Rect) (vpW vpH : ℚ),
        (construct false conds cbT cbF oe r vpW vpH).1.status = initialStatus)
    ∧ (∀ (s : Evaluator) (r : Rect) (vpW vpH : ℚ) (ev : JSVal),
        definiteStatus (checkPositionCore s r vpW vpH ev).1.status)
    ∧ (∀ (s : Evaluator) (conds : Conds) (cbT cbF : JSVal) (oe : Bool) (r : Rect)
        (vpW vpH : ℚ), definiteStatus s.status →
          definiteStatus (onMethod s conds cbT cbF oe r vpW vpH).1.status)
    ∧ (∀ (s : Evaluator) (cbT : JSVal) (r : Rect) (vpW vpH : ℚ),
        definiteStatus s.status → definiteStatus (always s cbT r vpW vpH).1.status) := by
  refine ⟨⟨rfl, rfl, rfl, rfl, rfl, rfl⟩, ?_, ?_, ?_, ?_⟩
  · intro conds cbT cbF oe r vpW vpH
    simp [construct]
  · intro s r vpW vpH ev
    rw [checkPositionCore_status]
    exact definiteStatus_statusOfRect r vpW vpH
  · intro s conds cbT cbF oe r vpW vpH h
    simp only [onMethod]
    split
    · exact h
    · split
      · rw [checkPositionCore_status]
        exact definiteStatus_statusOfRect r vpW vpH
      · exact h
  · intro s cbT r vpW vpH h
    simp only [always]
    split
    · exact h
    · split
      · rw [checkPositionCore_status]
        exact definiteStatus_statusOfRect r vpW vpH
      · exact h

/-- C10: an evaluation reports at most one callback invocation; a
callbackTrue invocation happens only with the recorded match truthy and
callbackTrue a function, a callbackFalse invocation only with the recorded
match falsy and callbackFalse a function, and when the callback selected by
the recorded match is not a function, nothing is invoked at all. -/
theorem c10_callback_selection_requires_match_and_function (s : Evaluator) (r : Rect)
    (vpW vpH : ℚ) (ev : JSVal) :
    (∀ e2, (checkPositionCore s r vpW vpH ev).2 = some (Which.ctrue, e2) →
        (checkPositionCore s r vpW vpH ev).1.conditionsMatch.truthy = true
        ∧ s.callbackTrue.isFunction = true)
    ∧ (∀ e2, (checkPositionCore s r vpW vpH ev).2 = some (Which.cfalse, e2) →
        (checkPositionCore s r vpW vpH ev).1.conditionsMatch.truthy = false
        ∧ s.callbackFalse.isFunction = true)
    ∧ ((checkPositionCore s r vpW vpH ev).1.conditionsMatch.truthy = true →
        s.callbackTrue.isFunction = false →
        (checkPositionCore s r vpW vpH ev).2 = none)
    ∧ ((checkPositionCore s r vpW vpH ev).1.conditionsMatch.truthy = false →
        s.callbackFalse.isFunction = false →
        (checkPositionCore s r vpW vpH ev).2 = none) := by
  simp only [checkPositionCore]
  split
  · exact fireCallback_spec _ s.callbackTrue s.callbackFalse ev
  · exact ⟨fun e2 h => by simp at h, fun e2 h => by simp at h,
      fun h1 h2 => rfl, fun h1 h2 => rfl⟩

theorem statusOfRect_centerIsVisible (r : Rect) (vpW vpH : ℚ) :
    (statusOfRect r vpW vpH).centerIsVisible = JSVal.bool (centerMatch r vpW vpH) := rfl

theorem condObjMatches_center (st : Status) :
    condObjMatches st [("centerIsVisible", JSVal.bool true)]
      = (st.centerIsVisible == JSVal.bool true) := by
  simp [condObjMatches, fieldFails, statusGet, jsbool_beq_str, JSVal.truthy]

theorem matchOutcome_center (s : Evaluator) (prev : Option Bool) (r : Rect) (vpW vpH : ℚ)
    (hc : s.conditions = centerCond) (hm : s.conditionsMatch = optMS prev) :
    matchOutcome s s.status (statusOfRect r vpW vpH)
      = (centerMatch r vpW vpH, !(centerMatch r vpW vpH)) := by
  cases prev <;>
    simp [matchOutcome, hc, hm, optMS, centerCond, condsobj_beq_str, jsnull_beq_all,
      msbool_beq_all, condObjMatches_center, statusOfRect_centerIsVisible,
      jsbool_beq_jsbool]

theorem centerStep (s : Evaluator) (prev : Option Bool) (r : Rect) (vpW vpH : ℚ)
    (hc : s.conditions = centerCond) (ht : s.callbackTrue = JSVal.func)
    (hf : s.callbackFalse = JSVal.func) (he : s.onEveryScrollEvent = false)
    (hm : s.conditionsMatch = optMS prev) :
    checkPositionCore s r vpW vpH JSVal.undef
      = ({ s with
            status := statusOfRect r vpW vpH,
            conditionsMatch := MatchState.bool (centerMatch r vpW vpH) },
         if prev == some (centerMatch r vpW vpH) then none
         else if centerMatch r vpW vpH then some (Which.ctrue, JSVal.undef)
         else some (Which.cfalse, JSVal.undef)) := by
  have hmo := matchOutcome_center s prev r vpW vpH hc hm
  cases prev with
  | none =>
      cases hm2 : centerMatch r vpW vpH <;>
        simp [checkPositionCore, fireCallback, hmo, hm, hc, he, ht, hf, hm2, optMS,
          centerCond, condsobj_beq_str, jsnull_beq_all, msbool_beq_jsnull,
          none_beq_some, MatchState.truthy, JSVal.isFunction]
  | some b =>
      cases b <;> cases hm2 : centerMatch r vpW vpH <;>
        simp [checkPositionCore, fireCallback, hmo, hm, hc, he, ht, hf, hm2, optMS,
          centerCond, condsobj_beq_str, msbool_beq_all, msbool_beq_msbool,
          some_beq_some, MatchState.truthy, JSVal.isFunction]

theorem evalSeq_center_spec (frames : List (Rect × ℚ × ℚ)) :
    ∀ (s : Evaluator) (prev : Option Bool), s.conditions = centerCond →
      s.callbackTrue = JSVal.func → s.callbackFalse = JSVal.func →
      s.onEveryScrollEvent = false → s.conditionsMatch = optMS prev →
      (evalSeq s frames).2 = specTransitionCalls prev frames := by
  induction frames with
  | nil => intro s prev _ _ _ _ _; rfl
  | cons f fs ih =>
      intro s prev hc ht hf he hm
      have hstep := centerStep s prev f.1 f.2.1 f.2.2 hc ht hf he hm
      simp only [evalSeq, specTransitionCalls, hstep]
      refine congrArg₂ List.cons rfl ?_
      exact ih _ (some (centerMatch f.1 f.2.1 f.2.2)) hc ht hf he rfl

/-- C7: with the condition object (centerIsVisible, true), both callbacks
functions and onEveryScrollEvent false, a sequence of evaluations from an
unset match state reports callbackTrue exactly at the steps where the
computed center visibility is true while the recorded match was not true,
callbackFalse exactly at those where it is false while the recorded match
was not false, and nothing at steps where the match is unchanged -- the
transition pattern specTransitionCalls describes. -/
theorem c7_center_condition_edge_triggered (s : Evaluator)
    (frames : List (Rect × ℚ × ℚ))
    (_hb : s.elementBound = true) (hc : s.conditions = centerCond)
    (hm : s.conditionsMatch = MatchState.jsnull) (ht : s.callbackTrue = JSVal.func)
    (hf : s.callbackFalse = JSVal.func) (he : s.onEveryScrollEvent = false) :
    (evalSeq s frames).2 = specTransitionCalls none frames :=
  evalSeq_center_spec frames s none hc ht hf he hm

/-- C7 witness: outside, inside, inside, outside produces callbackFalse,
callbackTrue, nothing, callbackFalse. -/
theorem c7_witness :
    (evalSeq exCenter [(exRectHidden, 800, 600), (exRectIn, 800, 600),
        (exRectIn, 800, 600), (exRectHidden, 800, 600)]).2
      = [some (Which.cfalse, JSVal.undef), some (Which.ctrue, JSVal.undef), none,
         some (Which.cfalse, JSVal.undef)] := by
  have h := c7_center_condition_edge_triggered exCenter
    [(exRectHidden, 800, 600), (exRectIn, 800, 600), (exRectIn, 800, 600),
     (exRectHidden, 800, 600)] rfl rfl rfl rfl rfl rfl
  rw [h]
  have h1 : centerMatch exRectHidden 800 600 = false := by
    norm_num [centerMatch, exRectHidden]
  have h2 : centerMatch exRectIn 800 600 = true := by
    norm_num [centerMatch, exRectIn]
  simp [specTransitionCalls, h1, h2]

end WatchScroll
